import Mathlib

/-!
# Verification of `statsd_exporter` `main.go` against its specification

This development shallowly embeds the startup and reload control flow of
`src/main.go` (the `main`, `configReloader` and `dumpFSM` functions) together
with spec-modelled definitions for the parts of the repository that are not
under `src/` (the mapping engine in `pkg/mapper` and the event-queue/batcher),
and proves or refutes the specification's claims about them.

Conventions:
* External-world effects (socket binds succeeding, `os.Create` succeeding,
  a config file parsing) are captured in an `Env` record of outcomes; `main`
  becomes a pure function of the command-line flags and the environment.
* `log.Fatal` is modelled by the `MainOutcome.fatal` constructor carrying the
  program point at which the process terminated.
* The sequence of notable actions `main` performs before terminating or
  reaching steady state is returned as a trace, so that claims of the form
  "X is never invoked" become membership statements about the trace.
-/

/-- The four metric kinds of the data model (§3): a tagged variant over
counter / gauge / observer (timer, histogram) / set. -/
inductive MetricKind
  | counter
  | gauge
  | observer
  | set
deriving DecidableEq, Repr

/-- A parsed StatsD event (§3). The numeric value is embedded as an integer;
no claim under verification depends on the numeric domain of `value`. -/
structure Event where
  bucketName : String
  value : Int
  kind : MetricKind
deriving DecidableEq, Repr

/-- One dot-segment of a mapping-rule pattern (§3): a literal segment, a
single-segment wildcard `*`, or a trailing wildcard consuming the rest. -/
inductive PatSeg
  | lit (s : String)
  | single
  | trailing
deriving DecidableEq, Repr

/-- A piece of a name/label template: literal text or a positional capture. -/
inductive TmplPart
  | text (s : String)
  | cap (i : Nat)
deriving DecidableEq, Repr

/-- A mapping rule's action (§3): rewrite the metric, or drop it. -/
inductive RuleAction
  | map
  | drop
deriving DecidableEq, Repr

/-- Modelled from the spec: a `MappingRule` (§3) of the `pkg/mapper`
configuration, which is not under `src/`. Pattern, name template, label
templates, optional kind override and action, immutable once loaded. -/
structure MappingRule where
  pattern : List PatSeg
  nameTemplate : List TmplPart
  labelTemplates : List (String × List TmplPart)
  kindOverride : Option MetricKind
  action : RuleAction
deriving DecidableEq, Repr

/-- A loaded rule set: the rules in file (declaration) order. -/
abbrev RuleSet := List MappingRule

/-- The result of resolving a bucket name (§3 `MappingResult`). -/
structure MappingResult where
  resolvedName : String
  labels : List (String × String)
  matched : Bool
  kind : MetricKind
deriving DecidableEq, Repr

/-- Characters allowed unescaped in a pass-through metric name (§4.2):
`[A-Za-z0-9_]`. -/
def isAllowedMetricChar (c : Char) : Bool :=
  (('a' ≤ c && c ≤ 'z') || ('A' ≤ c && c ≤ 'Z') || ('0' ≤ c && c ≤ '9') || c == '_')

/-- Modelled from the spec: sanitization of a raw bucket name (§4.2) — every
character outside `[A-Za-z0-9_]` is replaced by `_`. -/
def sanitizeBucket (s : String) : String :=
  s.map (fun c => if isAllowedMetricChar c then c else '_')

/-- The pass-through mapping result (§4.2): sanitized bucket name, no labels,
kind taken from the protocol line, not matched by any rule. -/
def passThrough (bucket : String) (kind : MetricKind) : MappingResult :=
  { resolvedName := sanitizeBucket bucket, labels := [], matched := false, kind := kind }

/-- Modelled from the spec: matching a pattern against the dot-segments of a
bucket (§4.2). A literal matches itself, `single` matches exactly one segment
and binds it, `trailing` (which is last) matches one or more remaining
segments as a single dot-joined capture. Returns the positional captures. -/
def segsMatch : List PatSeg → List String → Option (List String)
  | [], [] => some []
  | PatSeg.lit s :: ps, x :: xs => if s = x then segsMatch ps xs else none
  | PatSeg.single :: ps, x :: xs => (segsMatch ps xs).map (fun caps => x :: caps)
  | [PatSeg.trailing], x :: xs => some [String.intercalate "." (x :: xs)]
  | _, _ => none

/-- Specificity rank of a pattern segment: literals are most specific, then
single wildcards, then the trailing wildcard. -/
def segRank : PatSeg → Nat
  | PatSeg.lit _ => 0
  | PatSeg.single => 1
  | PatSeg.trailing => 2

/-- Modelled from the spec: strict "more specific than" on patterns (§4.2) —
compared level by level, a literal child takes precedence over a wildcard at
the same level (most-specific match wins). -/
def patMoreSpecific : List PatSeg → List PatSeg → Bool
  | p :: ps, q :: qs =>
      (segRank p < segRank q) || (segRank p == segRank q && patMoreSpecific ps qs)
  | _, _ => false

/-- Modelled from the spec: choose the winning rule for a segmented bucket
(§4.2) — among matching rules the most specific wins, and among equally
specific rules the one declared earliest in the file wins (the fold keeps an
earlier winner unless a strictly more specific rule appears later). -/
def findMatch (rules : RuleSet) (segs : List String) : Option (MappingRule × List String) :=
  List.foldl
    (fun acc r =>
      match segsMatch r.pattern segs with
      | none => acc
      | some caps =>
          match acc with
          | none => some (r, caps)
          | some (b, bcaps) =>
              if patMoreSpecific r.pattern b.pattern then some (r, caps)
              else some (b, bcaps))
    none rules

/-- Expand a name/label template with the positional captures. -/
def expandTemplate (parts : List TmplPart) (caps : List String) : String :=
  String.join (parts.map (fun p =>
    match p with
    | TmplPart.text s => s
    | TmplPart.cap i => (caps.drop i).headD ""))

/-- Modelled from the spec: the Mapper's state (§3 lifecycle) — the loaded
rule set (`none` when no configuration was supplied: identity pass-through
policy) together with the configured lookup-cache size. The cache is
semantically transparent (§8 cache transparency), so only its size setting is
carried. -/
structure MetricMapper where
  rules : Option RuleSet
  cacheSize : Nat
deriving DecidableEq, Repr

/-- Modelled from the spec: `resolve(bucketName) → MappingResult` (§4.2).
With no rule set loaded, or when no rule matches, the pass-through policy
applies; a matching rule's templates produce the final name and labels, and
its kind override (if any) replaces the protocol kind. -/
def MetricMapper.resolve (m : MetricMapper) (bucket : String) (kind : MetricKind) :
    MappingResult :=
  match m.rules with
  | none => passThrough bucket kind
  | some rs =>
      match findMatch rs (bucket.splitOn ".") with
      | none => passThrough bucket kind
      | some (r, caps) =>
          { resolvedName := expandTemplate r.nameTemplate caps
            labels := r.labelTemplates.map (fun lt => (lt.fst, expandTemplate lt.snd caps))
            matched := true
            kind := r.kindOverride.getD kind }

/-- Modelled from the spec: `MetricMapper.InitFromFile` of `pkg/mapper`, which
is not under `src/`. Reading and parsing the configuration file is an external
effect, so its outcome is an input: `none` means the load failed (unreadable or
unparsable file) and the call returns an error with the previous pair fully
intact (§4.2); `some rs` means it succeeded and atomically replaces the
RuleSet/Automaton/Cache pair with one built from `rs` and the given cache
size. -/
def MetricMapper.InitFromFile (m : MetricMapper) (loadResult : Option RuleSet)
    (cacheSize : Nat) : Except Unit MetricMapper :=
  match loadResult with
  | none => Except.error ()
  | some rs =>
      let _ := m
      Except.ok { rules := some rs, cacheSize := cacheSize }

/-- Modelled from the spec: `MetricMapper.InitCache` — initializes only the
lookup cache with the configured size, loading no rules. -/
def MetricMapper.InitCache (m : MetricMapper) (cacheSize : Nat) : MetricMapper :=
  { m with cacheSize := cacheSize }

/-- The state the config reloader acts on: the live mapper plus the
`statsd_exporter_config_reloads_total` counters labelled by outcome
(`configLoads.WithLabelValues("success"/"failure")` in `main.go`). -/
structure ReloaderState where
  mapper : MetricMapper
  successCount : Nat
  failureCount : Nat
deriving DecidableEq, Repr

/-- The body of `configReloader`'s signal loop (`main.go` lines 118–132) for
one received SIGHUP. `fileName` and `cacheSize` are the values captured at
startup, so a reload re-reads the same configuration path. If no mapping
config was given, only a warning is logged and nothing changes; otherwise
`InitFromFile` is attempted with the outcome `loadResult`, incrementing the
failure counter and keeping the mapper on error, or installing the new mapper
and incrementing the success counter. The loop then continues waiting; there
is no fatal exit in this function. -/
def reloadStep (fileName : String) (cacheSize : Nat) (loadResult : Option RuleSet)
    (st : ReloaderState) : ReloaderState :=
  if fileName = "" then
    st
  else
    match st.mapper.InitFromFile loadResult cacheSize with
    | Except.error _ =>
        { st with failureCount := st.failureCount + 1 }
    | Except.ok m =>
        { mapper := m, successCount := st.successCount + 1,
          failureCount := st.failureCount }

/-- The command-line flags of `main.go` (lines 150–165) that the verified
control flow reads, with their declared defaults. -/
structure Flags where
  statsdListenUDP : String := ":9125"
  statsdListenTCP : String := ":9125"
  statsdListenUnixgram : String := ""
  mappingConfig : String := ""
  readBuffer : Int := 0
  cacheSize : Nat := 1000
  eventQueueSize : Nat := 10000
  eventFlushThreshold : Nat := 1000
  dumpFSMPath : String := ""
deriving DecidableEq, Repr

/-- The outcomes of the external effects `main` performs, one run's worth:
whether each bind/listen and buffer-resize succeeds, whether the unixgram
socket path already exists, the result of reading and parsing the mapping
config file at startup (`none` = load fails), and whether `os.Create` of the
FSM dump file succeeds (`dumpFSM` in `main.go` only fails on `os.Create`;
write errors through the buffered writer are not checked). -/
structure Env where
  udpListenOk : Bool
  udpSetReadBufferOk : Bool
  tcpListenOk : Bool
  unixgramPreexists : Bool
  unixgramListenOk : Bool
  unixgramSetReadBufferOk : Bool
  loadResult : Option RuleSet
  dumpCreateOk : Bool
deriving DecidableEq, Repr

/-- The program points at which `main` calls `log.Fatal` and terminates. -/
inductive FatalStage
  | noListeners
  | udpListen
  | udpReadBuffer
  | tcpListen
  | unixgramExists
  | unixgramListen
  | unixgramReadBuffer
  | configLoad
  | dumpFSM
deriving DecidableEq, Repr

/-- The notable actions `main` performs, recorded as a trace in program
order. -/
inductive MainAction
  | createQueue (capacity : Nat)
  | listenUDP
  | listenTCP
  | listenUnixgram
  | initFromFile (path : String)
  | dumpFSM (path : String)
  | initCache (size : Nat)
  | startReloader
  | createExporter
deriving DecidableEq, Repr

/-- The steady state `main` reaches when nothing is fatal: the live mapper and
the event-queue configuration handed to the exporter. -/
structure RunState where
  mapper : MetricMapper
  queueCapacity : Nat
  flushThreshold : Nat
deriving DecidableEq, Repr

/-- A run of `main` either terminates via `log.Fatal` at some stage or reaches
the steady serving state. -/
inductive MainOutcome
  | fatal (stage : FatalStage)
  | running (st : RunState)
deriving DecidableEq, Repr

/-- Whether the outcome is a fatal termination. -/
def MainOutcome.isFatal : MainOutcome → Bool
  | MainOutcome.fatal _ => true
  | MainOutcome.running _ => false

/-- The UDP listener section of `main` (lines 187–203): skipped when the flag
is empty; `net.ListenUDP` failure is fatal; a nonzero read-buffer flag makes a
failed `SetReadBuffer` fatal too. -/
def udpSection (fl : Flags) (env : Env) : List MainAction × Option FatalStage :=
  if fl.statsdListenUDP = "" then ([], none)
  else if !env.udpListenOk then ([], some FatalStage.udpListen)
  else if fl.readBuffer != 0 && !env.udpSetReadBufferOk then
    ([], some FatalStage.udpReadBuffer)
  else ([MainAction.listenUDP], none)

/-- The TCP listener section of `main` (lines 205–215): skipped when the flag
is empty; `net.ListenTCP` failure is fatal. -/
def tcpSection (fl : Flags) (env : Env) : List MainAction × Option FatalStage :=
  if fl.statsdListenTCP = "" then ([], none)
  else if !env.tcpListenOk then ([], some FatalStage.tcpListen)
  else ([MainAction.listenTCP], none)

/-- The Unixgram listener section of `main` (lines 217–259): skipped when the
flag is empty; a preexisting socket path is fatal, `net.ListenUnixgram`
failure is fatal, and a nonzero read-buffer flag makes a failed
`SetReadBuffer` fatal. The subsequent chmod of the socket only warns on
failure and is not modelled. -/
def unixgramSection (fl : Flags) (env : Env) : List MainAction × Option FatalStage :=
  if fl.statsdListenUnixgram = "" then ([], none)
  else if env.unixgramPreexists then ([], some FatalStage.unixgramExists)
  else if !env.unixgramListenOk then ([], some FatalStage.unixgramListen)
  else if fl.readBuffer != 0 && !env.unixgramSetReadBufferOk then
    ([], some FatalStage.unixgramReadBuffer)
  else ([MainAction.listenUnixgram], none)

/-- The mapper-initialization section of `main` (lines 261–275). With a
mapping config requested, a failed `InitFromFile` is fatal; on success, a
nonempty dump-FSM path triggers `dumpFSM`, whose failure is also fatal. With
no mapping config, only `InitCache` runs and the dump-FSM path is never
consulted. -/
def mapperSection (fl : Flags) (env : Env) :
    List MainAction × Except FatalStage MetricMapper :=
  if fl.mappingConfig = "" then
    ([MainAction.initCache fl.cacheSize],
     Except.ok (MetricMapper.InitCache { rules := none, cacheSize := 0 } fl.cacheSize))
  else
    match MetricMapper.InitFromFile { rules := none, cacheSize := 0 }
        env.loadResult fl.cacheSize with
    | Except.error _ =>
        ([MainAction.initFromFile fl.mappingConfig], Except.error FatalStage.configLoad)
    | Except.ok m =>
        if fl.dumpFSMPath = "" then
          ([MainAction.initFromFile fl.mappingConfig], Except.ok m)
        else if env.dumpCreateOk then
          ([MainAction.initFromFile fl.mappingConfig, MainAction.dumpFSM fl.dumpFSMPath],
           Except.ok m)
        else
          ([MainAction.initFromFile fl.mappingConfig, MainAction.dumpFSM fl.dumpFSMPath],
           Except.error FatalStage.dumpFSM)

/-- The control flow of `main` (lines 149–287): first the at-least-one-listener
check (lines 172–174, before anything is created), then queue creation
(line 183), the three listener sections in program order, the mapper section,
and finally the reloader goroutine and the exporter. Each `log.Fatal` stops
the run at its stage with the trace accumulated so far. -/
def runMain (fl : Flags) (env : Env) : List MainAction × MainOutcome :=
  if fl.statsdListenUDP = "" ∧ fl.statsdListenTCP = "" ∧ fl.statsdListenUnixgram = "" then
    ([], MainOutcome.fatal FatalStage.noListeners)
  else
    let t0 := [MainAction.createQueue fl.eventQueueSize]
    match udpSection fl env with
    | (ut, some st) => (t0 ++ ut, MainOutcome.fatal st)
    | (ut, none) =>
      match tcpSection fl env with
      | (tt, some st) => (t0 ++ ut ++ tt, MainOutcome.fatal st)
      | (tt, none) =>
        match unixgramSection fl env with
        | (xt, some st) => (t0 ++ ut ++ tt ++ xt, MainOutcome.fatal st)
        | (xt, none) =>
          match mapperSection fl env with
          | (mt, Except.error st) => (t0 ++ ut ++ tt ++ xt ++ mt, MainOutcome.fatal st)
          | (mt, Except.ok m) =>
              (t0 ++ ut ++ tt ++ xt ++ mt ++ [MainAction.startReloader, MainAction.createExporter],
               MainOutcome.running
                 { mapper := m, queueCapacity := fl.eventQueueSize,
                   flushThreshold := fl.eventFlushThreshold })

/-- All configured listener sections succeed and at least one listener is
configured: the condition under which `main` gets past line 259. -/
def listenersOk (fl : Flags) (env : Env) : Prop :=
  (fl.statsdListenUDP ≠ "" ∨ fl.statsdListenTCP ≠ "" ∨ fl.statsdListenUnixgram ≠ "") ∧
  (fl.statsdListenUDP ≠ "" →
    env.udpListenOk = true ∧ (fl.readBuffer ≠ 0 → env.udpSetReadBufferOk = true)) ∧
  (fl.statsdListenTCP ≠ "" → env.tcpListenOk = true) ∧
  (fl.statsdListenUnixgram ≠ "" →
    env.unixgramPreexists = false ∧ env.unixgramListenOk = true ∧
    (fl.readBuffer ≠ 0 → env.unixgramSetReadBufferOk = true))

instance (fl : Flags) (env : Env) : Decidable (listenersOk fl env) := by
  unfold listenersOk
  infer_instance

/-- Modelled from the spec: the observable state of the Event Queue / Batcher
(§4.3), whose implementation is not under `src/` (only its creation
`newEventQueue(events, threshold, interval)` at `main.go` line 185 is).
`buffer` holds the events accepted by `enqueue` but not yet delivered to the
Exporter, in enqueue order; `delivered` is the sequence of flushed batches
handed to the Exporter; `enqueued` is the history of all accepted events. -/
structure QState where
  buffer : List Event
  delivered : List (List Event)
  enqueued : List Event
deriving DecidableEq, Repr

/-- The initial queue state: nothing buffered, nothing delivered. -/
def QState.init : QState := { buffer := [], delivered := [], enqueued := [] }

/-- Modelled from the spec: the transitions of the bounded blocking queue
(§4.3, §5). `enqueue` is enabled only while the buffer is below `capacity` —
a producer at a full queue blocks (the step is simply not available), which is
the designed backpressure; no transition ever discards an event. `flush`
delivers the accumulated batch to the Exporter (triggered by the threshold,
the interval timer, or shutdown — all of which deliver the same batch, so the
trigger is not distinguished). -/
inductive QStep (capacity : Nat) : QState → QState → Prop
  | enqueue (st : QState) (e : Event) (h : st.buffer.length < capacity) :
      QStep capacity st
        { buffer := st.buffer ++ [e], delivered := st.delivered,
          enqueued := st.enqueued ++ [e] }
  | flush (st : QState) :
      QStep capacity st
        { buffer := [], delivered := st.delivered ++ [st.buffer],
          enqueued := st.enqueued }

/-- The states reachable from the empty queue by `QStep` transitions. -/
inductive QReach (capacity : Nat) : QState → Prop
  | init : QReach capacity QState.init
  | step {st st' : QState} : QReach capacity st → QStep capacity st st' →
      QReach capacity st'

/-- Conservation: every `QStep` preserves "the enqueue history equals the
delivered batches, concatenated, followed by the current buffer" — no
transition loses or reorders an event. -/
theorem qstep_conservation {capacity : Nat} {st st' : QState}
    (hs : QStep capacity st st')
    (h : st.enqueued = st.delivered.flatten ++ st.buffer) :
    st'.enqueued = st'.delivered.flatten ++ st'.buffer := by
  cases hs with
  | enqueue e hlt =>
      simp only [h, List.append_assoc]
  | flush =>
      simp [h, List.flatten_append]

/-- Every reachable queue state satisfies the conservation invariant. -/
theorem qreach_conservation {capacity : Nat} {st : QState}
    (h : QReach capacity st) :
    st.enqueued = st.delivered.flatten ++ st.buffer := by
  induction h with
  | init => rfl
  | step _ hs ih => exact qstep_conservation hs ih

/-- A sample event for concrete instantiations. -/
def sampleEvent : Event := { bucketName := "foo.bar", value := 5, kind := MetricKind.gauge }

/-- Flag values: all defaults (UDP and TCP listeners on `:9125`, no mapping
config, no dump path). -/
def flagsDefault : Flags := {}

/-- Flag values: defaults with a mapping config requested. -/
def flagsWithConfig : Flags := { mappingConfig := "mapping.yml" }

/-- Flag values: defaults with a mapping config and an FSM dump path. -/
def flagsWithDump : Flags := { mappingConfig := "mapping.yml", dumpFSMPath := "fsm.dot" }

/-- Flag values: every statsd listener disabled. -/
def flagsNoListeners : Flags :=
  { statsdListenUDP := "", statsdListenTCP := "", statsdListenUnixgram := "" }

/-- An environment where every external effect succeeds and the mapping config
parses to the empty rule set. -/
def envAllOk : Env :=
  { udpListenOk := true, udpSetReadBufferOk := true, tcpListenOk := true,
    unixgramPreexists := false, unixgramListenOk := true,
    unixgramSetReadBufferOk := true, loadResult := some [], dumpCreateOk := true }

/-- Like `envAllOk` but `os.Create` of the FSM dump file fails. -/
def envDumpFail : Env := { envAllOk with dumpCreateOk := false }

/-- Like `envAllOk` but the mapping config file fails to load. -/
def envLoadFail : Env := { envAllOk with loadResult := none }

/-- Like `envAllOk` but the UDP bind fails. -/
def envUdpFail : Env := { envAllOk with udpListenOk := false }

/-- The trace of everything `main` does before the mapper section, when no
listener section is fatal. -/
def preTrace (fl : Flags) (env : Env) : List MainAction :=
  MainAction.createQueue fl.eventQueueSize ::
    ((udpSection fl env).1 ++ (tcpSection fl env).1 ++ (unixgramSection fl env).1)

/-- The UDP section's trace holds listen actions only. -/
theorem udpSection_trace (fl : Flags) (env : Env) :
    (udpSection fl env).1 = [] ∨ (udpSection fl env).1 = [MainAction.listenUDP] := by
  unfold udpSection
  split_ifs <;> simp

/-- The TCP section's trace holds listen actions only. -/
theorem tcpSection_trace (fl : Flags) (env : Env) :
    (tcpSection fl env).1 = [] ∨ (tcpSection fl env).1 = [MainAction.listenTCP] := by
  unfold tcpSection
  split_ifs <;> simp

/-- The Unixgram section's trace holds listen actions only. -/
theorem unixgramSection_trace (fl : Flags) (env : Env) :
    (unixgramSection fl env).1 = [] ∨
      (unixgramSection fl env).1 = [MainAction.listenUnixgram] := by
  unfold unixgramSection
  split_ifs <;> simp

/-- When every configured listener section succeeds, no section is fatal. -/
theorem sections_none_of_listenersOk (fl : Flags) (env : Env)
    (hl : listenersOk fl env) :
    (udpSection fl env).2 = none ∧ (tcpSection fl env).2 = none ∧
      (unixgramSection fl env).2 = none := by
  obtain ⟨-, hu, ht, hx⟩ := hl
  refine ⟨?_, ?_, ?_⟩
  · unfold udpSection
    split_ifs with h1 h2 h3
    · rfl
    · exact absurd (hu h1).1 (by simpa using h2)
    · rcases Bool.and_eq_true _ _ |>.mp h3 with ⟨hb, hs⟩
      have : fl.readBuffer ≠ 0 := by
        intro h0
        rw [h0] at hb
        simp at hb
      exact absurd ((hu h1).2 this) (by simpa using hs)
    · rfl
  · unfold tcpSection
    split_ifs with h1 h2
    · rfl
    · exact absurd (ht h1) (by simpa using h2)
    · rfl
  · unfold unixgramSection
    split_ifs with h1 h2 h3 h4
    · rfl
    · exact absurd (hx h1).1 (by simp [h2])
    · exact absurd (hx h1).2.1 (by simpa using h3)
    · rcases Bool.and_eq_true _ _ |>.mp h4 with ⟨hb, hs⟩
      have : fl.readBuffer ≠ 0 := by
        intro h0
        rw [h0] at hb
        simp at hb
      exact absurd ((hx h1).2.2 this) (by simpa using hs)
    · rfl

/-- When every configured listener section succeeds, `main` runs the three
listener sections and then behaves as the mapper section dictates: a mapper
fatal stops the run, otherwise the reloader and exporter are started and the
steady state holds the mapper section's mapper. -/
theorem runMain_eq_of_listenersOk (fl : Flags) (env : Env)
    (hl : listenersOk fl env) :
    runMain fl env =
      match mapperSection fl env with
      | (mt, Except.error st) => (preTrace fl env ++ mt, MainOutcome.fatal st)
      | (mt, Except.ok m) =>
          (preTrace fl env ++ mt ++ [MainAction.startReloader, MainAction.createExporter],
           MainOutcome.running
             { mapper := m, queueCapacity := fl.eventQueueSize,
               flushThreshold := fl.eventFlushThreshold }) := by
  obtain ⟨hu2, ht2, hx2⟩ := sections_none_of_listenersOk fl env hl
  have hne : ¬(fl.statsdListenUDP = "" ∧ fl.statsdListenTCP = "" ∧
      fl.statsdListenUnixgram = "") := by
    rcases hl.1 with h | h | h <;> tauto
  unfold runMain
  rw [if_neg hne]
  have hu3 : udpSection fl env = ((udpSection fl env).1, none) := by
    rw [← hu2]
  have ht3 : tcpSection fl env = ((tcpSection fl env).1, none) := by
    rw [← ht2]
  have hx3 : unixgramSection fl env = ((unixgramSection fl env).1, none) := by
    rw [← hx2]
  rw [hu3, ht3, hx3]
  rcases hms : mapperSection fl env with ⟨mt, mr⟩
  cases mr <;> simp [preTrace]

/-- C9: a SIGHUP received when no mapping config file was configured performs
no reload at all — the body of `configReloader`'s loop returns the state
unchanged (mapper untouched, neither config-load counter incremented) for
every load outcome, and the loop continues waiting for further signals. -/
theorem reload_without_config_is_noop (cacheSize : Nat) (loadResult : Option RuleSet)
    (st : ReloaderState) :
    reloadStep "" cacheSize loadResult st = st := rfl

/-- C3: a SIGHUP received with a mapping config file configured re-reads that
path (the `fileName` captured at startup) and attempts the reload: on failure
the state changes only by incrementing the failure counter (the mapper and the
success counter are retained unchanged), on success the new mapper is
installed and only the success counter is incremented — so exactly one of the
two counters changes per attempt, and the loop continues non-fatally either
way. -/
theorem reload_attempt_changes_exactly_one_counter (fileName : String)
    (cacheSize : Nat) (loadResult : Option RuleSet) (st : ReloaderState)
    (hf : fileName ≠ "") :
    reloadStep fileName cacheSize loadResult st =
      match loadResult with
      | none => { st with failureCount := st.failureCount + 1 }
      | some rs =>
          { mapper := { rules := some rs, cacheSize := cacheSize },
            successCount := st.successCount + 1,
            failureCount := st.failureCount } := by
  unfold reloadStep
  rw [if_neg hf]
  cases loadResult <;> rfl

/-- Witness for C3 at a concrete failing reload: the mapper and success
counter are retained, the failure counter goes from 3 to 4. -/
theorem reload_attempt_changes_exactly_one_counter_witness :
    reloadStep "mapping.yml" 10 none
        { mapper := { rules := none, cacheSize := 5 }, successCount := 2,
          failureCount := 3 } =
      { mapper := { rules := none, cacheSize := 5 }, successCount := 2,
        failureCount := 4 } :=
  reload_attempt_changes_exactly_one_counter "mapping.yml" 10 none
    { mapper := { rules := none, cacheSize := 5 }, successCount := 2,
      failureCount := 3 } (by decide)

/-- C7: the configured capacity bounds the buffered, unflushed events — in
every reachable state of the queue transition system, the number of events
accepted by `enqueue` but not yet delivered to the Exporter is at most the
capacity (`main.go` passes the `statsd.event-queue-size` flag as the
capacity). -/
theorem queue_buffer_bounded (capacity : Nat) {st : QState}
    (h : QReach capacity st) :
    st.buffer.length ≤ capacity := by
  induction h with
  | init => simp [QState.init]
  | step _ hs ih =>
      cases hs with
      | enqueue e hlt => simpa using hlt
      | flush => simp

/-- The queue state holding one accepted, undelivered event. -/
def qStateOne : QState :=
  { buffer := [sampleEvent], delivered := [], enqueued := [sampleEvent] }

/-- Witness for C7: the state reached by enqueueing one event into an empty
queue of capacity 1 has a buffer of length at most 1. -/
theorem queue_buffer_bounded_witness : qStateOne.buffer.length ≤ 1 :=
  queue_buffer_bounded 1
    (QReach.step QReach.init (QStep.enqueue QState.init sampleEvent (by decide)))

/-- C6: the queue never discards an event. In every reachable state the
enqueue history is exactly the delivered batches followed by the still-buffered
events (nothing was lost, silently or otherwise), and one more flush step —
always available, e.g. the interval timer or the shutdown flush — delivers
everything still buffered, so every accepted event ends up in some flushed
batch; overload only disables the `enqueue` transition (backpressure), it
never drops. -/
theorem queue_never_discards (capacity : Nat) {st : QState}
    (h : QReach capacity st) :
    st.enqueued = st.delivered.flatten ++ st.buffer ∧
      ∃ st', QStep capacity st st' ∧ st'.buffer = [] ∧
        st'.enqueued = st'.delivered.flatten ∧
        ∀ e ∈ st.enqueued, ∃ b ∈ st'.delivered, e ∈ b := by
  have hc := qreach_conservation h
  refine ⟨hc, _, QStep.flush st, rfl, ?_, ?_⟩
  · simpa [List.flatten_append] using hc
  · intro e he
    rw [hc] at he
    rcases List.mem_append.mp he with h1 | h1
    · rcases List.mem_flatten.mp h1 with ⟨b, hb, heb⟩
      exact ⟨b, List.mem_append_left _ hb, heb⟩
    · exact ⟨st.buffer, List.mem_append_right _ (List.mem_singleton_self _), h1⟩

/-- Witness for C6 at the reachable state holding one undelivered event: the
flush step delivers it. -/
theorem queue_never_discards_witness :
    qStateOne.enqueued = qStateOne.delivered.flatten ++ qStateOne.buffer ∧
      ∃ st', QStep 2 qStateOne st' ∧ st'.buffer = [] ∧
        st'.enqueued = st'.delivered.flatten ∧
        ∀ e ∈ qStateOne.enqueued, ∃ b ∈ st'.delivered, e ∈ b :=
  queue_never_discards 2
    (QReach.step QReach.init (QStep.enqueue QState.init sampleEvent (by decide)))

/-- C8: with all three statsd listen addresses empty, `main` exits fatally at
its very first check (lines 172–174) — the trace is empty, so the queue, the
mapper and the exporter were never created. -/
theorem all_listeners_empty_fatal_first (fl : Flags) (env : Env)
    (hu : fl.statsdListenUDP = "") (ht : fl.statsdListenTCP = "")
    (hx : fl.statsdListenUnixgram = "") :
    runMain fl env = ([], MainOutcome.fatal FatalStage.noListeners) := by
  unfold runMain
  rw [if_pos ⟨hu, ht, hx⟩]

/-- Witness for C8 at the concrete all-disabled flag values. -/
theorem all_listeners_empty_fatal_first_witness :
    runMain flagsNoListeners envAllOk = ([], MainOutcome.fatal FatalStage.noListeners) :=
  all_listeners_empty_fatal_first flagsNoListeners envAllOk rfl rfl rfl

/-- Every element of the pre-mapper trace is the queue creation or a listener
start. -/
theorem preTrace_mem (fl : Flags) (env : Env) {a : MainAction}
    (ha : a ∈ preTrace fl env) :
    a = MainAction.createQueue fl.eventQueueSize ∨ a = MainAction.listenUDP ∨
      a = MainAction.listenTCP ∨ a = MainAction.listenUnixgram := by
  rcases udpSection_trace fl env with h1 | h1 <;>
    rcases tcpSection_trace fl env with h2 | h2 <;>
      rcases unixgramSection_trace fl env with h3 | h3 <;>
        simp [preTrace, h1, h2, h3] at ha <;> tauto

/-- With a mapping config requested and the load failing, the mapper section
attempts `InitFromFile` and is fatal at the config-load stage. -/
theorem mapperSection_load_failure (fl : Flags) (env : Env)
    (hm : fl.mappingConfig ≠ "") (he : env.loadResult = none) :
    mapperSection fl env =
      ([MainAction.initFromFile fl.mappingConfig], Except.error FatalStage.configLoad) := by
  unfold mapperSection
  rw [if_neg hm]
  simp [MetricMapper.InitFromFile, he]

/-- C2: when a mapping configuration file is requested and loading it fails at
startup, `main` terminates fatally at the config-load stage; no default
mapping policy is installed instead — `InitCache` (the no-config fallback)
never appears in the run's trace. -/
theorem startup_config_load_failure_is_fatal (fl : Flags) (env : Env)
    (hl : listenersOk fl env) (hm : fl.mappingConfig ≠ "")
    (he : env.loadResult = none) :
    (runMain fl env).2 = MainOutcome.fatal FatalStage.configLoad ∧
      ∀ n, MainAction.initCache n ∉ (runMain fl env).1 := by
  rw [runMain_eq_of_listenersOk fl env hl, mapperSection_load_failure fl env hm he]
  refine ⟨rfl, fun n hn => ?_⟩
  simp only [List.mem_append] at hn
  rcases hn with hn | hn
  · rcases preTrace_mem fl env hn with h | h | h | h <;> simp at h
  · simp at hn

/-- Witness for C2: with the default listeners, a requested config whose load
fails is fatal and no cache-only fallback happens. -/
theorem startup_config_load_failure_is_fatal_witness :
    listenersOk flagsWithConfig envLoadFail ∧
      ((runMain flagsWithConfig envLoadFail).2 =
          MainOutcome.fatal FatalStage.configLoad ∧
        ∀ n, MainAction.initCache n ∉ (runMain flagsWithConfig envLoadFail).1) :=
  ⟨by decide,
   startup_config_load_failure_is_fatal flagsWithConfig envLoadFail (by decide)
     (by decide) rfl⟩

/-- A configured UDP listener whose bind fails makes the UDP section fatal. -/
theorem udpSection_bind_failure (fl : Flags) (env : Env)
    (hne : fl.statsdListenUDP ≠ "") (hf : env.udpListenOk = false) :
    (udpSection fl env).2 = some FatalStage.udpListen := by
  unfold udpSection
  rw [if_neg hne]
  simp [hf]

/-- A configured TCP listener whose listen fails makes the TCP section fatal. -/
theorem tcpSection_bind_failure (fl : Flags) (env : Env)
    (hne : fl.statsdListenTCP ≠ "") (hf : env.tcpListenOk = false) :
    (tcpSection fl env).2 = some FatalStage.tcpListen := by
  unfold tcpSection
  rw [if_neg hne]
  simp [hf]

/-- A configured Unixgram listener whose listen fails makes the Unixgram
section fatal (either at the preexisting-socket check or at the listen). -/
theorem unixgramSection_bind_failures (fl : Flags) (env : Env)
    (hne : fl.statsdListenUnixgram ≠ "") (hf : env.unixgramListenOk = false) :
    (unixgramSection fl env).2 ≠ none := by
  unfold unixgramSection
  rw [if_neg hne]
  split_ifs <;> simp_all

/-- C4: for every configured statsd listener transport, a failure to bind or
listen on its address at startup makes the run fatal — `main` never reaches
the steady serving state with that listener absent. -/
theorem listener_bind_failure_is_fatal (fl : Flags) (env : Env)
    (h : (fl.statsdListenUDP ≠ "" ∧ env.udpListenOk = false) ∨
      (fl.statsdListenTCP ≠ "" ∧ env.tcpListenOk = false) ∨
      (fl.statsdListenUnixgram ≠ "" ∧ env.unixgramListenOk = false)) :
    (runMain fl env).2.isFatal = true := by
  have hne : ¬(fl.statsdListenUDP = "" ∧ fl.statsdListenTCP = "" ∧
      fl.statsdListenUnixgram = "") := by
    rcases h with ⟨h1, -⟩ | ⟨h1, -⟩ | ⟨h1, -⟩ <;> tauto
  unfold runMain
  rw [if_neg hne]
  rcases h1 : udpSection fl env with ⟨ut, ur⟩
  cases ur with
  | some st => simp [MainOutcome.isFatal]
  | none =>
    rcases h2 : tcpSection fl env with ⟨tt, tr⟩
    cases tr with
    | some st => simp [MainOutcome.isFatal]
    | none =>
      rcases h3 : unixgramSection fl env with ⟨xt, xr⟩
      cases xr with
      | some st => simp [MainOutcome.isFatal]
      | none =>
        exfalso
        rcases h with ⟨ha, hb⟩ | ⟨ha, hb⟩ | ⟨ha, hb⟩
        · have := udpSection_bind_failure fl env ha hb
          rw [h1] at this
          simp at this
        · have := tcpSection_bind_failure fl env ha hb
          rw [h2] at this
          simp at this
        · have := unixgramSection_bind_failures fl env ha hb
          rw [h3] at this
          simp at this

/-- Witness for C4: with default flags and a failing UDP bind, the run is
fatal. -/
theorem listener_bind_failure_is_fatal_witness :
    (flagsDefault.statsdListenUDP ≠ "" ∧ envUdpFail.udpListenOk = false) ∧
      (runMain flagsDefault envUdpFail).2.isFatal = true :=
  ⟨by decide, listener_bind_failure_is_fatal flagsDefault envUdpFail (by decide)⟩

/-- Counterexample for C1: a concrete run (default listeners, a mapping config
that loads, a dump path configured) in which the FSM dump is triggered and its
file cannot be created — `main` terminates fatally at the dump stage instead
of continuing to serve traffic. -/
theorem dump_failure_terminates_cex :
    MainAction.dumpFSM "fsm.dot" ∈ (runMain flagsWithDump envDumpFail).1 ∧
      (runMain flagsWithDump envDumpFail).2 = MainOutcome.fatal FatalStage.dumpFSM := by
  decide

/-- C1 (amended): whenever the startup FSM dump is triggered (mapping config
present and loaded, dump path set) and fails because the dump file cannot be
created, `main` terminates fatally at the dump stage (`log.Fatal("Error
dumping FSM:", err)`, lines 267–272) — the failure is not local and the
process does not continue serving traffic. -/
theorem dump_failure_is_fatal (fl : Flags) (env : Env) (rs : RuleSet)
    (hl : listenersOk fl env) (hm : fl.mappingConfig ≠ "")
    (hrs : env.loadResult = some rs) (hd : fl.dumpFSMPath ≠ "")
    (hc : env.dumpCreateOk = false) :
    (runMain fl env).2 = MainOutcome.fatal FatalStage.dumpFSM := by
  rw [runMain_eq_of_listenersOk fl env hl]
  have hms : mapperSection fl env =
      ([MainAction.initFromFile fl.mappingConfig,
         MainAction.dumpFSM fl.dumpFSMPath],
        Except.error FatalStage.dumpFSM) := by
    unfold mapperSection
    rw [if_neg hm]
    simp [MetricMapper.InitFromFile, hrs, hd, hc]
  rw [hms]

/-- Witness for the amended C1 at the concrete failing dump. -/
theorem dump_failure_is_fatal_witness :
    listenersOk flagsWithDump envDumpFail ∧
      (runMain flagsWithDump envDumpFail).2 = MainOutcome.fatal FatalStage.dumpFSM :=
  ⟨by decide,
   dump_failure_is_fatal flagsWithDump envDumpFail [] (by decide) (by decide) rfl
     (by decide) rfl⟩

/-- With no mapping config, the mapper section only initializes the cache at
the configured size; the dump path is never consulted. -/
theorem mapperSection_no_config (fl : Flags) (env : Env)
    (hm : fl.mappingConfig = "") :
    mapperSection fl env =
      ([MainAction.initCache fl.cacheSize],
        Except.ok { rules := none, cacheSize := fl.cacheSize }) := by
  unfold mapperSection
  rw [if_pos hm]
  rfl

/-- C5: with no mapping configuration supplied, `main` never invokes
`InitFromFile`, initializes only the lookup cache at the configured size, and
reaches the steady state with a rule-free mapper on which every bucket
resolves via the no-rules pass-through path. -/
theorem no_config_defaults_to_pass_through (fl : Flags) (env : Env)
    (hl : listenersOk fl env) (hm : fl.mappingConfig = "") :
    (∀ p, MainAction.initFromFile p ∉ (runMain fl env).1) ∧
      MainAction.initCache fl.cacheSize ∈ (runMain fl env).1 ∧
      ∃ rst, (runMain fl env).2 = MainOutcome.running rst ∧
        rst.mapper = { rules := none, cacheSize := fl.cacheSize } ∧
        ∀ bucket kind, rst.mapper.resolve bucket kind = passThrough bucket kind := by
  rw [runMain_eq_of_listenersOk fl env hl, mapperSection_no_config fl env hm]
  refine ⟨?_, ?_, ?_⟩
  · intro p hp
    simp only [List.mem_append] at hp
    rcases hp with (hp | hp) | hp
    · rcases preTrace_mem fl env hp with h | h | h | h <;> simp at h
    · simp at hp
    · simp at hp
  · simp
  · exact ⟨_, rfl, rfl, fun bucket kind => rfl⟩

/-- Witness for C5 at the default flags (no mapping config) with every
external effect succeeding. -/
theorem no_config_defaults_to_pass_through_witness :
    listenersOk flagsDefault envAllOk ∧
      ((∀ p, MainAction.initFromFile p ∉ (runMain flagsDefault envAllOk).1) ∧
        MainAction.initCache flagsDefault.cacheSize ∈ (runMain flagsDefault envAllOk).1 ∧
        ∃ rst, (runMain flagsDefault envAllOk).2 = MainOutcome.running rst ∧
          rst.mapper = { rules := none, cacheSize := flagsDefault.cacheSize } ∧
          ∀ bucket kind, rst.mapper.resolve bucket kind = passThrough bucket kind) :=
  ⟨by decide, no_config_defaults_to_pass_through flagsDefault envAllOk (by decide) rfl⟩

/-- Any run's trace is a sublist of the full action list: queue creation,
the three listener sections, the mapper section, then the reloader and
exporter starts. -/
theorem runMain_trace_sublist (fl : Flags) (env : Env) :
    List.Sublist (runMain fl env).1
      (preTrace fl env ++ (mapperSection fl env).1 ++
        [MainAction.startReloader, MainAction.createExporter]) := by
  unfold runMain
  by_cases hall : fl.statsdListenUDP = "" ∧ fl.statsdListenTCP = "" ∧
      fl.statsdListenUnixgram = ""
  · rw [if_pos hall]
    exact List.nil_sublist _
  · rw [if_neg hall]
    rcases h1 : udpSection fl env with ⟨ut, ur⟩
    rcases h2 : tcpSection fl env with ⟨tt, tr⟩
    rcases h3 : unixgramSection fl env with ⟨xt, xr⟩
    rcases h4 : mapperSection fl env with ⟨mt, mr⟩
    have hp : preTrace fl env =
        MainAction.createQueue fl.eventQueueSize :: (ut ++ tt ++ xt) := by
      simp [preTrace, h1, h2, h3]
    rw [hp]
    cases ur with
    | some st =>
        dsimp only
        simp only [List.cons_append, List.nil_append, List.cons_sublist_cons,
          List.append_assoc]
        exact List.sublist_append_left ut _
    | none =>
      cases tr with
      | some st =>
          dsimp only
          simp only [List.cons_append, List.nil_append, List.cons_sublist_cons,
            List.append_assoc]
          exact (List.append_sublist_append_left ut).mpr
            (List.sublist_append_left tt _)
      | none =>
        cases xr with
        | some st =>
            dsimp only
            simp only [List.cons_append, List.nil_append, List.cons_sublist_cons,
              List.append_assoc]
            exact (List.append_sublist_append_left ut).mpr
              ((List.append_sublist_append_left tt).mpr
                (List.sublist_append_left xt _))
        | none =>
          cases mr with
          | error st =>
              dsimp only
              simp only [List.cons_append, List.nil_append, List.cons_sublist_cons,
                List.append_assoc]
              exact (List.append_sublist_append_left ut).mpr
                ((List.append_sublist_append_left tt).mpr
                  ((List.append_sublist_append_left xt).mpr
                    (List.sublist_append_left mt _)))
          | ok m =>
              simp [List.append_assoc]

/-- Every element of any run's trace is the queue creation, a listener start,
an element of the mapper section's trace, or the reloader/exporter start. -/
theorem runMain_trace_mem (fl : Flags) (env : Env) {a : MainAction}
    (ha : a ∈ (runMain fl env).1) :
    a = MainAction.createQueue fl.eventQueueSize ∨ a = MainAction.listenUDP ∨
      a = MainAction.listenTCP ∨ a = MainAction.listenUnixgram ∨
      a ∈ (mapperSection fl env).1 ∨ a = MainAction.startReloader ∨
      a = MainAction.createExporter := by
  have := (runMain_trace_sublist fl env).subset ha
  simp only [List.mem_append] at this
  rcases this with (hp | hp) | hp
  · rcases preTrace_mem fl env hp with h | h | h | h <;> tauto
  · tauto
  · simp at hp
    tauto

/-- C10: with an empty mapping-config flag, the dump-FSM flag is silently
ignored — the run is identical to the one with the dump path cleared (so no
dump is attempted and no error can arise from it), and no dump action ever
appears in the trace. -/
theorem dump_flag_ignored_without_config (fl : Flags) (env : Env)
    (hm : fl.mappingConfig = "") :
    runMain fl env = runMain { fl with dumpFSMPath := "" } env ∧
      ∀ p, MainAction.dumpFSM p ∉ (runMain fl env).1 := by
  constructor
  · unfold runMain
    rw [mapperSection_no_config fl env hm,
      mapperSection_no_config { fl with dumpFSMPath := "" } env hm]
    rfl
  · intro p hp
    rcases runMain_trace_mem fl env hp with h | h | h | h | h | h | h <;>
      first
        | (simp at h)
        | (rw [mapperSection_no_config fl env hm] at h; simp at h)

/-- Witness for C10 at the default flags with a dump path set: the run equals
the dump-free run and no dump action occurs. -/
theorem dump_flag_ignored_without_config_witness :
    runMain { flagsDefault with dumpFSMPath := "fsm.dot" } envAllOk =
        runMain { { flagsDefault with dumpFSMPath := "fsm.dot" } with
          dumpFSMPath := "" } envAllOk ∧
      ∀ p, MainAction.dumpFSM p ∉
        (runMain { flagsDefault with dumpFSMPath := "fsm.dot" } envAllOk).1 :=
  dump_flag_ignored_without_config { flagsDefault with dumpFSMPath := "fsm.dot" }
    envAllOk rfl
